import Mathlib

/-!
Shallow embedding of the executable logic of the Whisper prompting guide
notebook (`examples/Whisper_prompting_guide.ipynb`).

The notebook defines two wrapper functions around the OpenAI client:

* `transcribe(audio_filepath, prompt)`: opens the audio file in binary mode,
  calls `client.audio.transcriptions.create(file=..., model="whisper-1",
  prompt=prompt)` and returns `transcript.text`;
* `fictitious_prompt_from_instruction(instruction)`: calls
  `client.chat.completions.create(model="gpt-4o-mini", temperature=0,
  messages=[system message (fixed), user message (the instruction)])` and
  returns `response.choices[0].message.content`.

The external world (local filesystem, transcription service, chat-completion
service) is modelled as a `World` record of oracles together with logs of the
requests issued over the network; the two Python functions become explicit
state-passing functions `World → args → Except Err α × World`.  Errors raised
by the underlying client (unreadable file, network or service failure) are
opaque `Err` values carried by `Except`; the Python `IndexError` raised by
`response.choices[0]` on an empty list is the distinguished `Err.indexError`.
-/

/-- Errors surfaced to the caller: opaque errors raised by opening the file
(`ioFailure`), opaque errors raised by the external client call
(`apiFailure`), and the indexing error raised by `response.choices[0]` on an
empty `choices` list. -/
inductive Err where
  | ioFailure : String → Err
  | apiFailure : String → Err
  | indexError : Err
deriving DecidableEq, Repr

/-- A transcription request as built by
`client.audio.transcriptions.create(...)`.  `file`, `model` and `prompt` are
the three parameters the notebook passes; the remaining fields model the
optional parameters of the client call (`language`, `response_format`,
`temperature`), which the notebook leaves unset, so they default to `none`. -/
structure TranscriptionRequest where
  file : List Nat
  model : String
  prompt : String
  language : Option String := none
  response_format : Option String := none
  temperature : Option Int := none
deriving DecidableEq, Repr

/-- The transcription service's response; the notebook reads only `.text`. -/
structure TranscriptionResponse where
  text : String
deriving DecidableEq, Repr

/-- One role-tagged message of a chat-completion request or response. -/
structure ChatMessage where
  role : String
  content : String
deriving DecidableEq, Repr

/-- A chat-completion request as built by
`client.chat.completions.create(model=..., temperature=0, messages=[...])`. -/
structure ChatRequest where
  model : String
  temperature : Nat
  messages : List ChatMessage
deriving DecidableEq, Repr

/-- One element of the `choices` list of a chat-completion response. -/
structure ChatChoice where
  message : ChatMessage
deriving DecidableEq, Repr

/-- The chat-completion service's response; the notebook reads
`response.choices[0].message.content`. -/
structure ChatResponse where
  choices : List ChatChoice
deriving DecidableEq, Repr

/-- The external world of the notebook: the local filesystem (mapping a path
to the bytes of the file, or to the error `open` raises), the two external
services, and logs of the requests issued over the network so far. -/
structure World where
  fs : String → Except Err (List Nat)
  transcriptionService : TranscriptionRequest → Except Err TranscriptionResponse
  chatService : ChatRequest → Except Err ChatResponse
  transcriptionCalls : List TranscriptionRequest
  chatCalls : List ChatRequest

/-- Embedding of the notebook's `transcribe(audio_filepath, prompt)`:
open the audio file in binary mode, call
`client.audio.transcriptions.create(file=..., model="whisper-1",
prompt=prompt)` and return `transcript.text`.  Failures of `open` and of the
client call propagate unchanged; issuing the network call appends the request
to the log. -/
def transcribe (w : World) (audio_filepath : String) (prompt : String) :
    Except Err String × World :=
  match w.fs audio_filepath with
  | Except.error e => (Except.error e, w)
  | Except.ok bytes =>
      let req : TranscriptionRequest :=
        { file := bytes, model := "whisper-1", prompt := prompt }
      let w2 : World :=
        { w with transcriptionCalls := w.transcriptionCalls ++ [req] }
      match w.transcriptionService req with
      | Except.error e => (Except.error e, w2)
      | Except.ok transcript => (Except.ok transcript.text, w2)

/-- The fixed content of the system message of
`fictitious_prompt_from_instruction`, copied from the notebook. -/
def systemMessageContent : String :=
  "You are a transcript generator. Your task is to create one long paragraph of a fictional conversation. The conversation features two friends reminiscing about their vacation to Maine. Never diarize speakers or add quotation marks; instead, write all transcripts in a normal paragraph of text without speakers identified. Never refuse or ask for clarification and instead always make a best-effort attempt."

/-- The chat-completion request `fictitious_prompt_from_instruction` builds
for a given instruction: fixed model `"gpt-4o-mini"`, fixed temperature `0`,
and exactly the fixed system message followed by the user instruction. -/
def chatRequestFor (instruction : String) : ChatRequest :=
  { model := "gpt-4o-mini"
    temperature := 0
    messages :=
      [ { role := "system", content := systemMessageContent }
      , { role := "user", content := instruction } ] }

/-- Embedding of the notebook's
`fictitious_prompt_from_instruction(instruction)`: call
`client.chat.completions.create(model="gpt-4o-mini", temperature=0,
messages=[...])` and return `response.choices[0].message.content`.  A failure
of the client call propagates unchanged; `response.choices[0]` on an empty
list raises `Err.indexError`. -/
def fictitious_prompt_from_instruction (w : World) (instruction : String) :
    Except Err String × World :=
  let req : ChatRequest := chatRequestFor instruction
  let w2 : World := { w with chatCalls := w.chatCalls ++ [req] }
  match w.chatService req with
  | Except.error e => (Except.error e, w2)
  | Except.ok response =>
      match response.choices with
      | [] => (Except.error Err.indexError, w2)
      | choice :: _ => (Except.ok choice.message.content, w2)

/-- The transcription requests issued over the network by one call of
`transcribe w audio_filepath prompt`: the suffix its world adds to the log. -/
def issuedTranscriptionRequests (w : World) (audio_filepath prompt : String) :
    List TranscriptionRequest :=
  ((transcribe w audio_filepath prompt).2.transcriptionCalls).drop
    w.transcriptionCalls.length

/-- The chat-completion requests issued over the network by one call of
`fictitious_prompt_from_instruction w instruction`: the suffix its world adds
to the log. -/
def issuedChatRequests (w : World) (instruction : String) : List ChatRequest :=
  ((fictitious_prompt_from_instruction w instruction).2.chatCalls).drop
    w.chatCalls.length

/-- One call of either notebook function, for reasoning about sequences of
calls. -/
inductive Call where
  | transcribeCall : String → String → Call
  | promptCall : String → Call

/-- Run one call, keeping only the resulting world. -/
def runCall (w : World) : Call → World
  | Call.transcribeCall audio_filepath prompt =>
      (transcribe w audio_filepath prompt).2
  | Call.promptCall instruction =>
      (fictitious_prompt_from_instruction w instruction).2

/-- Run a sequence of calls in order. -/
def runCalls (w : World) (calls : List Call) : World :=
  calls.foldl runCall w

/-- A concrete world used to instantiate the theorems: every file reads as
three bytes, the transcription service answers `"hello"`, and the chat
service answers with one choice whose content is `"hi"`. -/
def sampleWorld : World :=
  { fs := fun _ => Except.ok [1, 2, 3]
    transcriptionService := fun _ => Except.ok { text := "hello" }
    chatService := fun _ =>
      Except.ok { choices := [ { message := { role := "assistant", content := "hi" } } ] }
    transcriptionCalls := []
    chatCalls := [] }

/-- A concrete world whose chat service succeeds with an empty `choices`
list. -/
def emptyChoicesWorld : World :=
  { fs := fun _ => Except.ok [1, 2, 3]
    transcriptionService := fun _ => Except.ok { text := "hello" }
    chatService := fun _ => Except.ok { choices := [] }
    transcriptionCalls := []
    chatCalls := [] }

/-- The world after `fictitious_prompt_from_instruction` differs from the
input world exactly by the one logged chat-completion request. -/
theorem fict_world_eq (w : World) (instruction : String) :
    (fictitious_prompt_from_instruction w instruction).2 =
      { w with chatCalls := w.chatCalls ++ [chatRequestFor instruction] } := by
  cases h : w.chatService (chatRequestFor instruction) with
  | error e => simp [fictitious_prompt_from_instruction, h]
  | ok response =>
      cases hc : response.choices with
      | nil => simp [fictitious_prompt_from_instruction, h, hc]
      | cons choice rest => simp [fictitious_prompt_from_instruction, h, hc]

/-- Claim C1: for every world, audio file path and prompt string (of any
length, including empty), every request `transcribe` issues to the external
transcription service carries the prompt string exactly as given: no local
validation, truncation or rewriting happens before the call. -/
theorem c1_prompt_forwarded_verbatim (w : World) (audio_filepath prompt : String) :
    ∀ req ∈ issuedTranscriptionRequests w audio_filepath prompt,
      req.prompt = prompt := by
  intro req hreq
  unfold issuedTranscriptionRequests transcribe at hreq
  cases h : w.fs audio_filepath with
  | error e =>
      simp [h, List.drop_length] at hreq
  | ok bytes =>
      cases h2 : w.transcriptionService
          { file := bytes, model := "whisper-1", prompt := prompt } with
      | error e =>
          simp [h, h2, List.drop_left] at hreq
          subst hreq
          rfl
      | ok transcript =>
          simp [h, h2, List.drop_left] at hreq
          subst hreq
          rfl

/-- Witness for C1: in the sample world, the single issued request carries
the prompt `"hello world"` verbatim. -/
theorem c1_prompt_forwarded_verbatim_witness :
    TranscriptionRequest.prompt
      { file := [1, 2, 3], model := "whisper-1", prompt := "hello world" } =
      "hello world" :=
  c1_prompt_forwarded_verbatim sampleWorld "audio.wav" "hello world"
    { file := [1, 2, 3], model := "whisper-1", prompt := "hello world" }
    (List.Mem.head _)

/-- Claim C2: for every world, audio file path and prompt, when opening the
file and the external transcription call both succeed, `transcribe` returns
exactly the `text` field of the service's response, as a plain string. -/
theorem c2_returns_service_text (w : World) (audio_filepath prompt : String)
    (bytes : List Nat) (resp : TranscriptionResponse)
    (hfs : w.fs audio_filepath = Except.ok bytes)
    (hsvc : w.transcriptionService
        { file := bytes, model := "whisper-1", prompt := prompt } =
        Except.ok resp) :
    (transcribe w audio_filepath prompt).1 = Except.ok resp.text := by
  unfold transcribe
  simp [hfs, hsvc]

/-- Witness for C2: in the sample world, `transcribe` returns exactly the
service response text `"hello"`. -/
theorem c2_returns_service_text_witness :
    (transcribe sampleWorld "audio.wav" "pr").1 = Except.ok "hello" :=
  c2_returns_service_text sampleWorld "audio.wav" "pr" [1, 2, 3]
    { text := "hello" } rfl rfl

/-- Claim C3: for every world, audio file path and prompt, when the file
opens, `transcribe` issues exactly one request, consisting of the byte stream
read from the audio file path, the fixed model identifier `"whisper-1"` and
the given prompt, with every optional parameter left unset; the model
identifier does not depend on the inputs. -/
theorem c3_request_construction (w : World) (audio_filepath prompt : String)
    (bytes : List Nat) (hfs : w.fs audio_filepath = Except.ok bytes) :
    issuedTranscriptionRequests w audio_filepath prompt =
      [ { file := bytes, model := "whisper-1", prompt := prompt
        , language := none, response_format := none, temperature := none } ] := by
  unfold issuedTranscriptionRequests transcribe
  cases h2 : w.transcriptionService
      { file := bytes, model := "whisper-1", prompt := prompt } with
  | error e => simp [hfs, h2, List.drop_left]
  | ok transcript => simp [hfs, h2, List.drop_left]

/-- Witness for C3: in the sample world, the issued request is exactly the
bytes of the file, the model `"whisper-1"` and the prompt, nothing else. -/
theorem c3_request_construction_witness :
    issuedTranscriptionRequests sampleWorld "audio.wav" "pr" =
      [ { file := [1, 2, 3], model := "whisper-1", prompt := "pr"
        , language := none, response_format := none, temperature := none } ] :=
  c3_request_construction sampleWorld "audio.wav" "pr" [1, 2, 3] rfl

/-- Claim C4: for every world and instruction string,
`fictitious_prompt_from_instruction` issues exactly one chat-completion
request, with the fixed model `"gpt-4o-mini"`, the fixed temperature `0`, and
exactly two role-tagged messages in order: the fixed system message (the
two-friends-vacation framing, independent of the input) followed by a user
message whose content is exactly the given instruction. -/
theorem c4_chat_request_shape (w : World) (instruction : String) :
    issuedChatRequests w instruction =
      [ { model := "gpt-4o-mini", temperature := 0
        , messages :=
            [ { role := "system", content := systemMessageContent }
            , { role := "user", content := instruction } ] } ] := by
  unfold issuedChatRequests
  rw [fict_world_eq]
  simp [List.drop_left, chatRequestFor]

/-- When the audio file opens, the world after `transcribe` differs from the
input world exactly by the one logged transcription request. -/
theorem transcribe_world_ok (w : World) (audio_filepath prompt : String)
    (bytes : List Nat) (h : w.fs audio_filepath = Except.ok bytes) :
    (transcribe w audio_filepath prompt).2 =
      { w with transcriptionCalls := w.transcriptionCalls ++
          [ { file := bytes, model := "whisper-1", prompt := prompt } ] } := by
  cases h2 : w.transcriptionService
      { file := bytes, model := "whisper-1", prompt := prompt } with
  | error e => simp [transcribe, h, h2]
  | ok transcript => simp [transcribe, h, h2]

/-- When the audio file does not open, `transcribe` leaves the world
unchanged: no network call is issued. -/
theorem transcribe_world_err (w : World) (audio_filepath prompt : String)
    (e : Err) (h : w.fs audio_filepath = Except.error e) :
    (transcribe w audio_filepath prompt).2 = w := by
  simp [transcribe, h]

/-- When the audio file opens, the result of `transcribe` is the service's
answer on the constructed request, with a successful response projected to
its `text` field. -/
theorem transcribe_fst_ok (w : World) (audio_filepath prompt : String)
    (bytes : List Nat) (h : w.fs audio_filepath = Except.ok bytes) :
    (transcribe w audio_filepath prompt).1 =
      (w.transcriptionService
        { file := bytes, model := "whisper-1", prompt := prompt }).map
        TranscriptionResponse.text := by
  cases h2 : w.transcriptionService
      { file := bytes, model := "whisper-1", prompt := prompt } with
  | error e => simp [transcribe, h, h2, Except.map]
  | ok transcript => simp [transcribe, h, h2, Except.map]

/-- When the audio file does not open, `transcribe` surfaces the error of
`open` unchanged. -/
theorem transcribe_fst_err (w : World) (audio_filepath prompt : String)
    (e : Err) (h : w.fs audio_filepath = Except.error e) :
    (transcribe w audio_filepath prompt).1 = Except.error e := by
  simp [transcribe, h]

/-- When the audio file opens, `transcribe` issues exactly the one request it
constructs. -/
theorem issuedT_ok (w : World) (audio_filepath prompt : String)
    (bytes : List Nat) (h : w.fs audio_filepath = Except.ok bytes) :
    issuedTranscriptionRequests w audio_filepath prompt =
      [ { file := bytes, model := "whisper-1", prompt := prompt } ] := by
  unfold issuedTranscriptionRequests
  rw [transcribe_world_ok w audio_filepath prompt bytes h]
  simp [List.drop_left]

/-- When the audio file does not open, `transcribe` issues no request. -/
theorem issuedT_err (w : World) (audio_filepath prompt : String)
    (e : Err) (h : w.fs audio_filepath = Except.error e) :
    issuedTranscriptionRequests w audio_filepath prompt = [] := by
  unfold issuedTranscriptionRequests
  rw [transcribe_world_err w audio_filepath prompt e h]
  simp [List.drop_length]

/-- A failed chat-completion call surfaces its error unchanged. -/
theorem fict_fst_err (w : World) (instruction : String) (e : Err)
    (h : w.chatService (chatRequestFor instruction) = Except.error e) :
    (fictitious_prompt_from_instruction w instruction).1 = Except.error e := by
  simp [fictitious_prompt_from_instruction, h]

/-- A successful chat-completion call yields the first choice's message
content, or `Err.indexError` when `choices` is empty. -/
theorem fict_fst_ok (w : World) (instruction : String) (resp : ChatResponse)
    (h : w.chatService (chatRequestFor instruction) = Except.ok resp) :
    (fictitious_prompt_from_instruction w instruction).1 =
      match resp.choices with
      | [] => Except.error Err.indexError
      | choice :: _ => Except.ok choice.message.content := by
  cases hc : resp.choices with
  | nil => simp [fictitious_prompt_from_instruction, h, hc]
  | cons choice rest => simp [fictitious_prompt_from_instruction, h, hc]

/-- `fictitious_prompt_from_instruction` always issues exactly the one
request it constructs. -/
theorem issuedC_eq (w : World) (instruction : String) :
    issuedChatRequests w instruction = [chatRequestFor instruction] := by
  unfold issuedChatRequests
  rw [fict_world_eq]
  simp [List.drop_left]

/-- One call of either function leaves the filesystem and both service
oracles unchanged. -/
theorem runCall_preserves (w : World) (c : Call) :
    (runCall w c).fs = w.fs ∧
      (runCall w c).transcriptionService = w.transcriptionService ∧
      (runCall w c).chatService = w.chatService := by
  cases c with
  | transcribeCall audio_filepath prompt =>
      cases h : w.fs audio_filepath with
      | error e =>
          rw [runCall, transcribe_world_err w audio_filepath prompt e h]
          exact ⟨rfl, rfl, rfl⟩
      | ok bytes =>
          rw [runCall, transcribe_world_ok w audio_filepath prompt bytes h]
          exact ⟨rfl, rfl, rfl⟩
  | promptCall instruction =>
      rw [runCall, fict_world_eq]
      exact ⟨rfl, rfl, rfl⟩

/-- Any sequence of calls leaves the filesystem and both service oracles
unchanged. -/
theorem runCalls_preserves (calls : List Call) (w : World) :
    (runCalls w calls).fs = w.fs ∧
      (runCalls w calls).transcriptionService = w.transcriptionService ∧
      (runCalls w calls).chatService = w.chatService := by
  induction calls generalizing w with
  | nil => exact ⟨rfl, rfl, rfl⟩
  | cons c rest ih =>
      have h1 := runCall_preserves w c
      have h2 := ih (runCall w c)
      refine ⟨?_, ?_, ?_⟩
      · rw [runCalls, List.foldl_cons, ← runCalls, h2.1, h1.1]
      · rw [runCalls, List.foldl_cons, ← runCalls, h2.2.1, h1.2.1]
      · rw [runCalls, List.foldl_cons, ← runCalls, h2.2.2, h1.2.2]

/-- Claim C5, counterexample: the claim says both functions raise an error
if and only if an underlying step (opening the audio file or the external
client call) raises.  In `emptyChoicesWorld` the chat-completion call
succeeds with an empty `choices` list, yet
`fictitious_prompt_from_instruction` raises an indexing error, so the claim
as stated is false. -/
theorem c5_counterexample :
    (fictitious_prompt_from_instruction emptyChoicesWorld "write lowercase").1 =
        Except.error Err.indexError ∧
      emptyChoicesWorld.chatService (chatRequestFor "write lowercase") =
        Except.ok { choices := [] } :=
  ⟨rfl, rfl⟩

/-- Claim C5, amended: `transcribe` raises an error if and only if opening
the audio file or the external transcription call raises, and the error
reaching the caller is the underlying error unmodified;
`fictitious_prompt_from_instruction` raises an error if and only if the
external chat-completion call raises — surfacing that error unmodified — or
the call succeeds with an empty `choices` list, in which case the error is
the indexing error.  Neither function catches, wraps, retries, or recovers. -/
theorem c5_error_propagation (w : World)
    (audio_filepath prompt instruction : String) (e : Err) :
    ((transcribe w audio_filepath prompt).1 = Except.error e ↔
      w.fs audio_filepath = Except.error e ∨
        ∃ bytes, w.fs audio_filepath = Except.ok bytes ∧
          w.transcriptionService
            { file := bytes, model := "whisper-1", prompt := prompt } =
            Except.error e) ∧
    ((fictitious_prompt_from_instruction w instruction).1 = Except.error e ↔
      w.chatService (chatRequestFor instruction) = Except.error e ∨
        ∃ resp, w.chatService (chatRequestFor instruction) = Except.ok resp ∧
          resp.choices = [] ∧ e = Err.indexError) := by
  constructor
  · cases h : w.fs audio_filepath with
    | error e2 =>
        rw [transcribe_fst_err w audio_filepath prompt e2 h]
        simp [Except.error.injEq]
    | ok bytes =>
        rw [transcribe_fst_ok w audio_filepath prompt bytes h]
        cases h2 : w.transcriptionService
            { file := bytes, model := "whisper-1", prompt := prompt } with
        | error e2 => simp [h2, Except.map]
        | ok transcript => simp [h2, Except.map]
  · cases h : w.chatService (chatRequestFor instruction) with
    | error e2 =>
        rw [fict_fst_err w instruction e2 h]
        simp [Except.error.injEq]
    | ok resp =>
        rw [fict_fst_ok w instruction resp h]
        cases hc : resp.choices with
        | nil =>
            simp [h, hc]
            exact eq_comm
        | cons choice rest => simp [h, hc]

/-- Claim C6: a call of `transcribe` has no effect beyond the network call
itself: the filesystem, both service oracles and the chat-call log are
unchanged, and the only state change is that the issued transcription
requests are appended to the transcription-call log. -/
theorem c6_transcribe_frame (w : World) (audio_filepath prompt : String) :
    (transcribe w audio_filepath prompt).2.fs = w.fs ∧
    (transcribe w audio_filepath prompt).2.transcriptionService =
      w.transcriptionService ∧
    (transcribe w audio_filepath prompt).2.chatService = w.chatService ∧
    (transcribe w audio_filepath prompt).2.chatCalls = w.chatCalls ∧
    ∃ issued, (transcribe w audio_filepath prompt).2.transcriptionCalls =
      w.transcriptionCalls ++ issued := by
  cases h : w.fs audio_filepath with
  | error e =>
      rw [transcribe_world_err w audio_filepath prompt e h]
      exact ⟨rfl, rfl, rfl, rfl, [], by simp⟩
  | ok bytes =>
      rw [transcribe_world_ok w audio_filepath prompt bytes h]
      exact ⟨rfl, rfl, rfl, rfl,
        [ { file := bytes, model := "whisper-1", prompt := prompt } ], rfl⟩

/-- Claim C8: when the chat-completion call succeeds with a non-empty
`choices` list, `fictitious_prompt_from_instruction` returns exactly the
message content of the first choice, a plain string that can be passed
unchanged as the prompt argument of `transcribe`. -/
theorem c8_returns_first_choice_content (w : World) (instruction : String)
    (resp : ChatResponse) (choice : ChatChoice) (rest : List ChatChoice)
    (h : w.chatService (chatRequestFor instruction) = Except.ok resp)
    (hc : resp.choices = choice :: rest) :
    (fictitious_prompt_from_instruction w instruction).1 =
      Except.ok choice.message.content := by
  rw [fict_fst_ok w instruction resp h, hc]

/-- Witness for C8: in the sample world the returned string is exactly the
first choice's content `"hi"`. -/
theorem c8_returns_first_choice_content_witness :
    (fictitious_prompt_from_instruction sampleWorld "x").1 = Except.ok "hi" :=
  c8_returns_first_choice_content sampleWorld "x"
    { choices := [ { message := { role := "assistant", content := "hi" } } ] }
    { message := { role := "assistant", content := "hi" } } [] rfl rfl

/-- Claim C9: no history is retained across calls: after any sequence of
preceding calls of either function, a call of `transcribe` or of
`fictitious_prompt_from_instruction` produces the same result and issues the
same requests as it would in the initial world. -/
theorem c9_history_independence (w : World) (calls : List Call)
    (audio_filepath prompt instruction : String) :
    (transcribe (runCalls w calls) audio_filepath prompt).1 =
      (transcribe w audio_filepath prompt).1 ∧
    issuedTranscriptionRequests (runCalls w calls) audio_filepath prompt =
      issuedTranscriptionRequests w audio_filepath prompt ∧
    (fictitious_prompt_from_instruction (runCalls w calls) instruction).1 =
      (fictitious_prompt_from_instruction w instruction).1 ∧
    issuedChatRequests (runCalls w calls) instruction =
      issuedChatRequests w instruction := by
  obtain ⟨hfs, hts, hcs⟩ := runCalls_preserves calls w
  refine ⟨?_, ?_, ?_, ?_⟩
  · cases h : w.fs audio_filepath with
    | error e =>
        have h2 : (runCalls w calls).fs audio_filepath = Except.error e := by
          rw [hfs, h]
        rw [transcribe_fst_err _ audio_filepath prompt e h2,
          transcribe_fst_err _ audio_filepath prompt e h]
    | ok bytes =>
        have h2 : (runCalls w calls).fs audio_filepath = Except.ok bytes := by
          rw [hfs, h]
        rw [transcribe_fst_ok _ audio_filepath prompt bytes h2,
          transcribe_fst_ok _ audio_filepath prompt bytes h, hts]
  · cases h : w.fs audio_filepath with
    | error e =>
        have h2 : (runCalls w calls).fs audio_filepath = Except.error e := by
          rw [hfs, h]
        rw [issuedT_err _ audio_filepath prompt e h2,
          issuedT_err _ audio_filepath prompt e h]
    | ok bytes =>
        have h2 : (runCalls w calls).fs audio_filepath = Except.ok bytes := by
          rw [hfs, h]
        rw [issuedT_ok _ audio_filepath prompt bytes h2,
          issuedT_ok _ audio_filepath prompt bytes h]
  · cases h : w.chatService (chatRequestFor instruction) with
    | error e =>
        have h2 : (runCalls w calls).chatService (chatRequestFor instruction) =
            Except.error e := by rw [hcs, h]
        rw [fict_fst_err _ instruction e h2, fict_fst_err _ instruction e h]
    | ok resp =>
        have h2 : (runCalls w calls).chatService (chatRequestFor instruction) =
            Except.ok resp := by rw [hcs, h]
        rw [fict_fst_ok _ instruction resp h2, fict_fst_ok _ instruction resp h]
  · rw [issuedC_eq, issuedC_eq]

/-- Claim C10: `fictitious_prompt_from_instruction` reads the first element
of the response's `choices` list without a guard: on a successful response
with a non-empty `choices` list it returns a value, and on a successful
response with an empty `choices` list it fails with the indexing error
rather than returning a value. -/
theorem c10_choices_indexing (w : World) (instruction : String)
    (resp : ChatResponse)
    (h : w.chatService (chatRequestFor instruction) = Except.ok resp) :
    (resp.choices = [] →
      (fictitious_prompt_from_instruction w instruction).1 =
        Except.error Err.indexError) ∧
    (resp.choices ≠ [] →
      ∃ s, (fictitious_prompt_from_instruction w instruction).1 =
        Except.ok s) := by
  constructor
  · intro hc
    rw [fict_fst_ok w instruction resp h, hc]
  · intro hc
    cases hcc : resp.choices with
    | nil => exact absurd hcc hc
    | cons choice rest =>
        exact ⟨choice.message.content,
          by rw [fict_fst_ok w instruction resp h, hcc]⟩

/-- Witness for C10: in the world whose chat service answers with an empty
`choices` list, the call fails with the indexing error. -/
theorem c10_choices_indexing_witness :
    (ChatResponse.choices { choices := [] } = ([] : List ChatChoice) →
      (fictitious_prompt_from_instruction emptyChoicesWorld "x").1 =
        Except.error Err.indexError) ∧
    (ChatResponse.choices { choices := [] } ≠ ([] : List ChatChoice) →
      ∃ s, (fictitious_prompt_from_instruction emptyChoicesWorld "x").1 =
        Except.ok s) :=
  c10_choices_indexing emptyChoicesWorld "x" { choices := [] } rfl
